import Mathlib

/-!
Shallow embedding of the two singleton implementations of this repository:

* `creational/singleton/singleton.py` — the per-class single-slot variant:
  `Singleton.__new__` guards creation through the class attribute `_instance`
  and `Singleton.__init__` guards one-time initialization through the
  `_initialized` flag set on the instance by `__new__`.
* `creational/singleton/singleton_meta.py` — the central-registry variant:
  `SingletonMeta.__call__` guards creation through the class-keyed dictionary
  `_instances`; `MySingleton.__init__` prints a message and sets `data`.

Object identity is modelled by allocation ids (`Nat`) drawn from a counter
`nextId`; attribute stores are association lists (`List (Nat × _)`) where an
update is a `cons` that shadows earlier entries, so `List.lookup` returns the
current value.  Console output is modelled as a trace of `Msg` values.
Type identifiers (classes) are modelled as `Nat`.
-/

/-- The diagnostic messages printed by the two variants.  `creating` and
`initializing` are the two prints of the per-class variant; `metaCreating` /
`metaReusing` are the prints of `SingletonMeta.__call__` (which interpolate the
class name, modelled by the class id); `myInit` is the print inside
`MySingleton.__init__`. -/
inductive Msg where
  | creating
  | initializing
  | metaCreating (cls : Nat)
  | metaReusing (cls : Nat)
  | myInit
  deriving DecidableEq

/-- A heap object of the per-class variant: the `_initialized` flag set by
`Singleton.__new__` / `Singleton.__init__`, and the `some_data` attribute
(absent, i.e. `none`, until `__init__`'s one-time body runs). -/
structure ObjP where
  initialized : Bool
  some_data : Option String
  deriving DecidableEq

/-- Program state of the per-class variant: the allocation counter, the
per-class `_instance` slots (class id ↦ object id; an absent key models
`_instance is None`), and the heap of `Singleton` objects. -/
structure PState where
  nextId : Nat
  instSlot : List (Nat × Nat)
  heap : List (Nat × ObjP)
  deriving DecidableEq

/-- The initial per-class state: `_instance = None`, nothing allocated. -/
def pState0 : PState := { nextId := 0, instSlot := [], heap := [] }

/-- `Singleton.__new__(cls, *args, **kwargs)`: if `cls._instance is None`,
print the creation message, allocate the object, record it in `cls._instance`
and set its `_initialized` flag to `False`; return `cls._instance`.
The `*args` are accepted and ignored by `__new__` itself. -/
def pNew (cls : Nat) (s : PState) : Nat × PState × List Msg :=
  match s.instSlot.lookup cls with
  | some oid => (oid, s, [])
  | none =>
      (s.nextId,
        { nextId := s.nextId + 1,
          instSlot := (cls, s.nextId) :: s.instSlot,
          heap := (s.nextId, { initialized := false, some_data := none }) :: s.heap },
        [Msg.creating])

/-- `Singleton.__init__(self)`: if `self._initialized` is false, print the
initialization message, set `self.some_data` and set `_initialized` to true.
The `none` branch (object id missing from the heap) is unreachable for states
produced by this API, since `__new__` always records the object it returns. -/
def pInit (oid : Nat) (s : PState) : PState × List Msg :=
  match s.heap.lookup oid with
  | none => (s, [])
  | some o =>
      if o.initialized then (s, [])
      else
        ({ s with heap := (oid, { initialized := true, some_data := some "Important data" }) :: s.heap },
          [Msg.initializing])

/-- `Singleton()` with no arguments: Python's `type.__call__` runs `__new__`
and then `__init__` on the returned instance.  Returns the object id, the new
state and the printed trace. -/
def pAcquire (cls : Nat) (s : PState) : Nat × PState × List Msg :=
  let r := pNew cls s
  let r2 := pInit r.1 r.2.1
  (r.1, r2.1, r.2.2 ++ r2.2)

/-- `n` successive no-argument acquisitions `Singleton()` of class `cls`,
collecting the concatenated trace. -/
def pAcquireN (cls : Nat) : Nat → PState → PState × List Msg
  | 0, s => (s, [])
  | n + 1, s =>
      let r := pAcquire cls s
      let rest := pAcquireN cls n r.2.1
      (rest.1, r.2.2 ++ rest.2)

/-- A heap object of the central-registry variant: the `data` attribute set by
`MySingleton.__init__`. -/
structure ObjM where
  data : String
  deriving DecidableEq

/-- Program state of the central-registry variant: the allocation counter, the
`SingletonMeta._instances` dictionary (class id ↦ object id) and the heap of
constructed objects. -/
structure MState where
  nextId : Nat
  instances : List (Nat × Nat)
  heap : List (Nat × ObjM)
  deriving DecidableEq

/-- The initial registry state: `_instances = {}`, nothing allocated. -/
def mState0 : MState := { nextId := 0, instances := [], heap := [] }

/-- `SingletonMeta.__call__(cls)` for a no-argument call `MySingleton()`:
if `cls not in cls._instances`, print the creation message and run
`super().__call__()` — which allocates the object and runs
`MySingleton.__init__` (printing its message and setting `data`) — then record
the result in `_instances`; otherwise print the reuse message.  Either way
return `cls._instances[cls]`. -/
def mCall (cls : Nat) (s : MState) : Nat × MState × List Msg :=
  match s.instances.lookup cls with
  | some oid => (oid, s, [Msg.metaReusing cls])
  | none =>
      (s.nextId,
        { nextId := s.nextId + 1,
          instances := (cls, s.nextId) :: s.instances,
          heap := (s.nextId, { data := "Some important shared data" }) :: s.heap },
        [Msg.metaCreating cls, Msg.myInit])

/-- `n` successive no-argument acquisitions `MySingleton()`-style for class
`cls` under the registry variant, collecting the concatenated trace. -/
def mCallN (cls : Nat) : Nat → MState → MState × List Msg
  | 0, s => (s, [])
  | n + 1, s =>
      let r := mCall cls s
      let rest := mCallN cls n r.2.1
      (rest.1, r.2.2 ++ rest.2)

/-- Looking up the key just written returns the written value. -/
theorem lookup_cons_self {β : Type} (k : Nat) (v : β) (l : List (Nat × β)) :
    ((k, v) :: l).lookup k = some v := by
  simp [List.lookup]

/-- Writing a different key does not change a lookup. -/
theorem lookup_cons_ne {β : Type} {c k : Nat} (v : β) (l : List (Nat × β)) (h : c ≠ k) :
    ((k, v) :: l).lookup c = l.lookup c := by
  have hb : (c == k) = false := by simp [h]
  simp [List.lookup, hb]

/-- A successful lookup exhibits a member of the association list. -/
theorem mem_of_lookup_eq_some {β : Type} {c : Nat} {v : β} {l : List (Nat × β)}
    (h : l.lookup c = some v) : (c, v) ∈ l := by
  induction l with
  | nil => simp [List.lookup] at h
  | cons p t ih =>
      obtain ⟨k, w⟩ := p
      by_cases hck : c = k
      · subst hck
        simp [List.lookup] at h
        simp [h]
      · have hb : (c == k) = false := by simp [hck]
        simp [List.lookup, hb] at h
        exact List.mem_cons_of_mem _ (ih h)

/-- `__new__` when the slot is already filled: returns the stored id,
changes nothing, prints nothing. -/
theorem pNew_of_lookup_some {cls v : Nat} {s : PState}
    (h : s.instSlot.lookup cls = some v) : pNew cls s = (v, s, []) := by
  unfold pNew
  rw [h]

/-- `__new__` when the slot is empty: allocates, records, prints. -/
theorem pNew_of_lookup_none {cls : Nat} {s : PState}
    (h : s.instSlot.lookup cls = none) :
    pNew cls s =
      (s.nextId,
        { nextId := s.nextId + 1,
          instSlot := (cls, s.nextId) :: s.instSlot,
          heap := (s.nextId, { initialized := false, some_data := none }) :: s.heap },
        [Msg.creating]) := by
  unfold pNew
  rw [h]

/-- After `__new__`, the class slot holds the returned object id. -/
theorem pNew_lookup_self (cls : Nat) (s : PState) :
    (pNew cls s).2.1.instSlot.lookup cls = some (pNew cls s).1 := by
  cases h : s.instSlot.lookup cls with
  | some v => rw [pNew_of_lookup_some h]; exact h
  | none => rw [pNew_of_lookup_none h]; exact lookup_cons_self cls s.nextId s.instSlot

/-- `__init__` touches only the heap: slots and the allocation counter
are unchanged. -/
theorem pInit_instSlot (oid : Nat) (s : PState) :
    (pInit oid s).1.instSlot = s.instSlot ∧ (pInit oid s).1.nextId = s.nextId := by
  unfold pInit
  cases s.heap.lookup oid with
  | none => exact ⟨rfl, rfl⟩
  | some o => by_cases h : o.initialized <;> simp [h]

/-- The id returned by an acquisition is the id returned by `__new__`. -/
theorem pAcquire_fst (cls : Nat) (s : PState) : (pAcquire cls s).1 = (pNew cls s).1 := rfl

/-- The slots after an acquisition are the slots after its `__new__` step. -/
theorem pAcquire_instSlot (cls : Nat) (s : PState) :
    (pAcquire cls s).2.1.instSlot = (pNew cls s).2.1.instSlot :=
  (pInit_instSlot (pNew cls s).1 (pNew cls s).2.1).1

/-- The allocation counter after an acquisition is the one after `__new__`. -/
theorem pAcquire_nextId (cls : Nat) (s : PState) :
    (pAcquire cls s).2.1.nextId = (pNew cls s).2.1.nextId :=
  (pInit_instSlot (pNew cls s).1 (pNew cls s).2.1).2

/-- An acquisition on a filled slot returns the stored id. -/
theorem pAcquire_fst_of_lookup {cls v : Nat} {s : PState}
    (h : s.instSlot.lookup cls = some v) : (pAcquire cls s).1 = v := by
  rw [pAcquire_fst, pNew_of_lookup_some h]

/-- After an acquisition, the class slot holds the returned object id. -/
theorem pAcquire_lookup_self (cls : Nat) (s : PState) :
    (pAcquire cls s).2.1.instSlot.lookup cls = some (pAcquire cls s).1 := by
  rw [pAcquire_instSlot, pAcquire_fst]
  exact pNew_lookup_self cls s

/-- `SingletonMeta.__call__` on a registered class: returns the stored id,
changes nothing, prints the reuse message. -/
theorem mCall_of_lookup_some {cls v : Nat} {t : MState}
    (h : t.instances.lookup cls = some v) : mCall cls t = (v, t, [Msg.metaReusing cls]) := by
  unfold mCall
  rw [h]

/-- `SingletonMeta.__call__` on an unregistered class: constructs, records,
prints the creation messages. -/
theorem mCall_of_lookup_none {cls : Nat} {t : MState}
    (h : t.instances.lookup cls = none) :
    mCall cls t =
      (t.nextId,
        { nextId := t.nextId + 1,
          instances := (cls, t.nextId) :: t.instances,
          heap := (t.nextId, { data := "Some important shared data" }) :: t.heap },
        [Msg.metaCreating cls, Msg.myInit]) := by
  unfold mCall
  rw [h]

/-- After a registry acquisition, `_instances` maps the class to the returned
object id. -/
theorem mCall_lookup_self (cls : Nat) (t : MState) :
    (mCall cls t).2.1.instances.lookup cls = some (mCall cls t).1 := by
  cases h : t.instances.lookup cls with
  | some v => rw [mCall_of_lookup_some h]; exact h
  | none => rw [mCall_of_lookup_none h]; exact lookup_cons_self cls t.nextId t.instances

/-- Claim C1: for every type identifier, two successive acquisitions return
the same object: in both the per-class variant (`Singleton()`) and the
central-registry variant (`MySingleton()`), the second call returns an object
id identical to the one the first call returned, from any starting state. -/
theorem c1_second_acquisition_returns_same_object (cls : Nat) (s : PState) (t : MState) :
    (pAcquire cls (pAcquire cls s).2.1).1 = (pAcquire cls s).1 ∧
    (mCall cls (mCall cls t).2.1).1 = (mCall cls t).1 := by
  constructor
  · exact pAcquire_fst_of_lookup (pAcquire_lookup_self cls s)
  · cases h : (mCall cls t).2.1.instances.lookup cls with
    | some v =>
        have hv : v = (mCall cls t).1 := by
          have := mCall_lookup_self cls t
          rw [h] at this
          exact Option.some.inj this
        rw [mCall_of_lookup_some h, hv]
    | none =>
        have := mCall_lookup_self cls t
        rw [h] at this
        exact absurd this (by simp)

/-- An acquisition of an already-created, already-initialized singleton is
completely silent and changes nothing. -/
theorem pAcquire_silent {cls oid : Nat} {o : ObjP} {s : PState}
    (h1 : s.instSlot.lookup cls = some oid) (h2 : s.heap.lookup oid = some o)
    (h3 : o.initialized = true) : pAcquire cls s = (oid, s, []) := by
  simp [pAcquire, pNew_of_lookup_some h1, pInit, h2, h3]

/-- Repeating a silent acquisition any number of times is still silent. -/
theorem pAcquireN_silent {cls oid : Nat} {o : ObjP} {s : PState}
    (h1 : s.instSlot.lookup cls = some oid) (h2 : s.heap.lookup oid = some o)
    (h3 : o.initialized = true) : ∀ n, pAcquireN cls n s = (s, []) := by
  intro n
  induction n with
  | zero => rfl
  | succ n ih =>
      unfold pAcquireN
      rw [pAcquire_silent h1 h2 h3]
      simp [ih]

/-- The first `Singleton()` call from the initial state: allocates object 0,
records it, initializes it, and prints both messages. -/
theorem pAcquire_initial (cls : Nat) :
    pAcquire cls pState0 =
      (0,
        { nextId := 1, instSlot := [(cls, 0)],
          heap := [(0, { initialized := true, some_data := some "Important data" }),
                   (0, { initialized := false, some_data := none })] },
        [Msg.creating, Msg.initializing]) := by
  have h0 : pState0.instSlot.lookup cls = none := rfl
  unfold pAcquire
  rw [pNew_of_lookup_none h0]
  simp [pInit, pState0, List.lookup]

/-- Registry acquisitions of an already-registered class only print reuse
messages and change nothing. -/
theorem mCallN_reusing {cls v : Nat} {t : MState}
    (h : t.instances.lookup cls = some v) :
    ∀ n, mCallN cls n t = (t, List.replicate n (Msg.metaReusing cls)) := by
  intro n
  induction n with
  | zero => rfl
  | succ n ih =>
      unfold mCallN
      rw [mCall_of_lookup_some h]
      simp [ih, List.replicate_succ]

/-- The first `MySingleton()` call from the initial state: prints the creation
message, runs `__init__` (printing its message and setting `data`), and
registers object 0. -/
theorem mCall_initial (cls : Nat) :
    mCall cls mState0 =
      (0,
        { nextId := 1, instances := [(cls, 0)],
          heap := [(0, { data := "Some important shared data" })] },
        [Msg.metaCreating cls, Msg.myInit]) := by
  have h0 : mState0.instances.lookup cls = none := rfl
  rw [mCall_of_lookup_none h0]
  rfl

/-- Claim C2: the one-time initialization side effects happen exactly once
per type identifier no matter how many acquisitions are made.  For any
`n + 1 ≥ 1` acquisitions from the initial state: in the per-class variant the
whole trace is exactly one creation message and one initialization message
(later calls are silent) and the stored object carries the initialized data;
in the central-registry variant the whole trace is exactly one creation
message and one `__init__` message followed by `n` reuse messages. -/
theorem c2_initialization_happens_exactly_once (cls n : Nat) :
    (pAcquireN cls (n + 1) pState0).2 = [Msg.creating, Msg.initializing] ∧
    (pAcquireN cls (n + 1) pState0).1.heap.lookup 0 =
      some { initialized := true, some_data := some "Important data" } ∧
    (mCallN cls (n + 1) mState0).2 =
      Msg.metaCreating cls :: Msg.myInit :: List.replicate n (Msg.metaReusing cls) := by
  have hrest : pAcquireN cls n
      { nextId := 1, instSlot := [(cls, 0)],
        heap := [(0, { initialized := true, some_data := some "Important data" }),
                 (0, { initialized := false, some_data := none })] } =
      ({ nextId := 1, instSlot := [(cls, 0)],
         heap := [(0, { initialized := true, some_data := some "Important data" }),
                  (0, { initialized := false, some_data := none })] }, []) := by
    exact pAcquireN_silent (lookup_cons_self cls 0 [])
      (lookup_cons_self 0 ({ initialized := true, some_data := some "Important data" } : ObjP)
        [(0, { initialized := false, some_data := none })]) rfl n
  have hp : pAcquireN cls (n + 1) pState0 =
      ({ nextId := 1, instSlot := [(cls, 0)],
         heap := [(0, { initialized := true, some_data := some "Important data" }),
                  (0, { initialized := false, some_data := none })] },
        [Msg.creating, Msg.initializing]) := by
    unfold pAcquireN
    rw [pAcquire_initial]
    simp [hrest]
  have hrest2 : mCallN cls n
      { nextId := 1, instances := [(cls, 0)],
        heap := [(0, { data := "Some important shared data" })] } =
      ({ nextId := 1, instances := [(cls, 0)],
         heap := [(0, { data := "Some important shared data" })] },
        List.replicate n (Msg.metaReusing cls)) :=
    mCallN_reusing (lookup_cons_self cls 0 []) n
  have hm : mCallN cls (n + 1) mState0 =
      ({ nextId := 1, instances := [(cls, 0)],
         heap := [(0, { data := "Some important shared data" })] },
        Msg.metaCreating cls :: Msg.myInit :: List.replicate n (Msg.metaReusing cls)) := by
    unfold mCallN
    rw [mCall_initial]
    simp [hrest2]
  refine ⟨by rw [hp], by rw [hp]; exact lookup_cons_self 0 _ _, by rw [hm]⟩

/-- Well-formedness of an instance store with respect to the allocation
counter: every stored object id was allocated (is below the counter), and
entries have pairwise-distinct keys and pairwise-distinct object ids.  This
holds for every state reachable from the initial state. -/
def regWF (l : List (Nat × Nat)) (next : Nat) : Prop :=
  (∀ p ∈ l, p.2 < next) ∧ l.Pairwise (fun p q => p.1 ≠ q.1 ∧ p.2 ≠ q.2)

/-- If a key is absent, it differs from every stored key. -/
theorem key_ne_of_lookup_none {c : Nat} {l : List (Nat × Nat)}
    (h : l.lookup c = none) : ∀ q ∈ l, q.1 ≠ c := by
  intro q hq hqc
  subst hqc
  induction l with
  | nil => simp at hq
  | cons p t ih =>
      rcases List.mem_cons.mp hq with hp | hp
      · subst hp
        simp [List.lookup] at h
      · obtain ⟨k, w⟩ := p
        by_cases hck : q.1 = k
        · subst hck
          simp [List.lookup] at h
        · have hb : (q.1 == k) = false := by simp [hck]
          simp only [List.lookup, hb] at h
          exact ih hp h

/-- In a well-formed store, every stored object id is below the counter. -/
theorem regWF_lookup_lt {l : List (Nat × Nat)} {next c v : Nat}
    (hW : regWF l next) (h : l.lookup c = some v) : v < next :=
  hW.1 (c, v) (mem_of_lookup_eq_some h)

/-- In a well-formed store, no two distinct keys map to the same object id. -/
theorem regWF_lookup_inj {l : List (Nat × Nat)} {next c1 c2 v : Nat}
    (hW : regWF l next) (h1 : l.lookup c1 = some v) (h2 : l.lookup c2 = some v) :
    c1 = c2 := by
  by_contra hne
  have hm1 := mem_of_lookup_eq_some h1
  have hm2 := mem_of_lookup_eq_some h2
  have hsym : Symmetric (fun p q : Nat × Nat => p.1 ≠ q.1 ∧ p.2 ≠ q.2) :=
    fun p q h => ⟨h.1.symm, h.2.symm⟩
  have hpq : ((c1, v) : Nat × Nat) ≠ (c2, v) := by
    intro h; exact hne (congrArg Prod.fst h)
  exact (hW.2.forall hsym hm1 hm2 hpq).2 rfl

/-- Recording a fresh object id under an absent key preserves
well-formedness. -/
theorem regWF_cons {l : List (Nat × Nat)} {next c : Nat}
    (hW : regWF l next) (h : l.lookup c = none) :
    regWF ((c, next) :: l) (next + 1) := by
  constructor
  · intro p hp
    rcases List.mem_cons.mp hp with hp | hp
    · subst hp; exact Nat.lt_succ_self next
    · exact Nat.lt_succ_of_lt (hW.1 p hp)
  · refine List.pairwise_cons.mpr ⟨?_, hW.2⟩
    intro q hq
    exact ⟨fun hk => key_ne_of_lookup_none h q hq hk.symm,
           Nat.ne_of_gt (hW.1 q hq)⟩

/-- A registry acquisition preserves store well-formedness. -/
theorem mCall_preserves_regWF {cls : Nat} {t : MState}
    (hW : regWF t.instances t.nextId) :
    regWF (mCall cls t).2.1.instances (mCall cls t).2.1.nextId := by
  cases h : t.instances.lookup cls with
  | some v => rw [mCall_of_lookup_some h]; exact hW
  | none => rw [mCall_of_lookup_none h]; exact regWF_cons hW h

/-- The object id returned by a registry acquisition on a registered class. -/
theorem mCall_fst_of_lookup_some {cls v : Nat} {t : MState}
    (h : t.instances.lookup cls = some v) : (mCall cls t).1 = v := by
  rw [mCall_of_lookup_some h]

/-- The object id returned by a registry acquisition on an unregistered
class is the freshly allocated one. -/
theorem mCall_fst_of_lookup_none {cls : Nat} {t : MState}
    (h : t.instances.lookup cls = none) : (mCall cls t).1 = t.nextId := by
  rw [mCall_of_lookup_none h]

/-- Acquisitions for two distinct classes under the registry variant return
distinct object ids (from any well-formed state). -/
theorem mCall_distinct {c1 c2 : Nat} {t : MState}
    (hW : regWF t.instances t.nextId) (hne : c1 ≠ c2) :
    (mCall c2 (mCall c1 t).2.1).1 ≠ (mCall c1 t).1 := by
  have hu : regWF (mCall c1 t).2.1.instances (mCall c1 t).2.1.nextId :=
    mCall_preserves_regWF hW
  have hl1 : (mCall c1 t).2.1.instances.lookup c1 = some (mCall c1 t).1 :=
    mCall_lookup_self c1 t
  cases h2 : (mCall c1 t).2.1.instances.lookup c2 with
  | some v2 =>
      rw [mCall_fst_of_lookup_some h2]
      intro hv
      exact hne (regWF_lookup_inj hu hl1 (hv ▸ h2))
  | none =>
      rw [mCall_fst_of_lookup_none h2]
      exact Nat.ne_of_gt (regWF_lookup_lt hu hl1)

/-- The per-class variant and the registry variant act identically on the
instance store: from states with equal slot maps and counters, one acquisition
returns the same object id and leaves equal slot maps and counters. -/
theorem pAcquire_matches_mCall {s : PState} {t : MState}
    (h1 : s.instSlot = t.instances) (h2 : s.nextId = t.nextId) (c : Nat) :
    (pAcquire c s).1 = (mCall c t).1 ∧
    (pAcquire c s).2.1.instSlot = (mCall c t).2.1.instances ∧
    (pAcquire c s).2.1.nextId = (mCall c t).2.1.nextId := by
  rw [pAcquire_fst, pAcquire_instSlot, pAcquire_nextId]
  cases h : t.instances.lookup c with
  | some v =>
      have hs : s.instSlot.lookup c = some v := by rw [h1]; exact h
      rw [pNew_of_lookup_some hs, mCall_of_lookup_some h]
      exact ⟨rfl, h1, h2⟩
  | none =>
      have hs : s.instSlot.lookup c = none := by rw [h1]; exact h
      rw [pNew_of_lookup_none hs, mCall_of_lookup_none h]
      exact ⟨h2, by simp [h1, h2], by simp [h2]⟩

/-- Claim C3: for two distinct type identifiers, the acquired instances are
distinct objects.  In both variants, from any well-formed state, acquiring
`c1` and then `c2 ≠ c1` returns two different object ids. -/
theorem c3_distinct_type_ids_never_share_instances (c1 c2 : Nat) (s : PState) (t : MState)
    (hWt : regWF t.instances t.nextId) (hWs : regWF s.instSlot s.nextId) (hne : c1 ≠ c2) :
    (mCall c2 (mCall c1 t).2.1).1 ≠ (mCall c1 t).1 ∧
    (pAcquire c2 (pAcquire c1 s).2.1).1 ≠ (pAcquire c1 s).1 := by
  refine ⟨mCall_distinct hWt hne, ?_⟩
  have hb := pAcquire_matches_mCall
    (t := { nextId := s.nextId, instances := s.instSlot, heap := [] }) rfl rfl c1
  have hb2 := pAcquire_matches_mCall hb.2.1 hb.2.2 c2
  rw [hb2.1, hb.1]
  exact mCall_distinct hWs hne

/-- Witness for C3: classes 0 and 1 from the initial states receive distinct
objects in both variants. -/
theorem c3_witness :
    (mCall 1 (mCall 0 mState0).2.1).1 ≠ (mCall 0 mState0).1 ∧
    (pAcquire 1 (pAcquire 0 pState0).2.1).1 ≠ (pAcquire 0 pState0).1 :=
  c3_distinct_type_ids_never_share_instances 0 1 pState0 mState0
    ⟨by simp [mState0], by simp [mState0]⟩
    ⟨by simp [pState0], by simp [pState0]⟩
    (by decide)

/-- A sequence of no-argument `Singleton()`-style acquisitions under the
per-class variant, collecting the returned object ids. -/
def pRun : List Nat → PState → PState × List Nat
  | [], s => (s, [])
  | c :: cs, s =>
      let r := pAcquire c s
      let rest := pRun cs r.2.1
      (rest.1, r.1 :: rest.2)

/-- A sequence of no-argument `MySingleton()`-style acquisitions under the
central-registry variant, collecting the returned object ids. -/
def mRun : List Nat → MState → MState × List Nat
  | [], t => (t, [])
  | c :: cs, t =>
      let r := mCall c t
      let rest := mRun cs r.2.1
      (rest.1, r.1 :: rest.2)

/-- A per-class acquisition never changes an already-filled slot. -/
theorem pAcquire_preserves_lookup {cls v : Nat} (c : Nat) {s : PState}
    (hs : s.instSlot.lookup cls = some v) :
    (pAcquire c s).2.1.instSlot.lookup cls = some v := by
  rw [pAcquire_instSlot]
  cases h : s.instSlot.lookup c with
  | some w => rw [pNew_of_lookup_some h]; exact hs
  | none =>
      rw [pNew_of_lookup_none h]
      have hne : cls ≠ c := by
        intro he
        subst he
        rw [hs] at h
        exact Option.noConfusion h
      rw [lookup_cons_ne _ _ hne]
      exact hs

/-- A registry acquisition never changes an existing `_instances` entry. -/
theorem mCall_preserves_lookup {cls v : Nat} (c : Nat) {t : MState}
    (ht : t.instances.lookup cls = some v) :
    (mCall c t).2.1.instances.lookup cls = some v := by
  cases h : t.instances.lookup c with
  | some w => rw [mCall_of_lookup_some h]; exact ht
  | none =>
      rw [mCall_of_lookup_none h]
      have hne : cls ≠ c := by
        intro he
        subst he
        rw [ht] at h
        exact Option.noConfusion h
      show ((c, t.nextId) :: t.instances).lookup cls = some v
      rw [lookup_cons_ne _ _ hne]
      exact ht

/-- Any sequence of per-class acquisitions preserves a filled slot. -/
theorem pRun_preserves_lookup {cls v : Nat} (seq : List Nat) {s : PState}
    (hs : s.instSlot.lookup cls = some v) :
    (pRun seq s).1.instSlot.lookup cls = some v := by
  induction seq generalizing s with
  | nil => exact hs
  | cons c cs ih => exact ih (pAcquire_preserves_lookup c hs)

/-- Any sequence of registry acquisitions preserves an `_instances` entry. -/
theorem mRun_preserves_lookup {cls v : Nat} (seq : List Nat) {t : MState}
    (ht : t.instances.lookup cls = some v) :
    (mRun seq t).1.instances.lookup cls = some v := by
  induction seq generalizing t with
  | nil => exact ht
  | cons c cs ih => exact ih (mCall_preserves_lookup c ht)

/-- Claim C4: once an instance is recorded for a type identifier it is never
replaced by a different object and never removed: any single acquisition, and
any sequence of acquisitions, leaves the recorded entry exactly as it was, in
both variants.  (At most one instance per identifier is inherent: the store
associates each identifier with at most one object id.) -/
theorem c4_store_invariant_entries_permanent (cls c v : Nat) (seq : List Nat)
    (s : PState) (t : MState)
    (hs : s.instSlot.lookup cls = some v) (ht : t.instances.lookup cls = some v) :
    (pAcquire c s).2.1.instSlot.lookup cls = some v ∧
    (mCall c t).2.1.instances.lookup cls = some v ∧
    (pRun seq s).1.instSlot.lookup cls = some v ∧
    (mRun seq t).1.instances.lookup cls = some v :=
  ⟨pAcquire_preserves_lookup c hs, mCall_preserves_lookup c ht,
   pRun_preserves_lookup seq hs, mRun_preserves_lookup seq ht⟩

/-- Witness for C4: with object 0 recorded for class 0, acquisitions of
class 1 and the acquisition sequence [1, 0, 2] keep the entry intact. -/
theorem c4_witness :
    (pAcquire 1 { nextId := 1, instSlot := [(0, 0)], heap := [] }).2.1.instSlot.lookup 0
      = some 0 ∧
    (mCall 1 { nextId := 1, instances := [(0, 0)], heap := [] }).2.1.instances.lookup 0
      = some 0 ∧
    (pRun [1, 0, 2] { nextId := 1, instSlot := [(0, 0)], heap := [] }).1.instSlot.lookup 0
      = some 0 ∧
    (mRun [1, 0, 2] { nextId := 1, instances := [(0, 0)], heap := [] }).1.instances.lookup 0
      = some 0 :=
  c4_store_invariant_entries_permanent 0 1 0 [1, 0, 2]
    { nextId := 1, instSlot := [(0, 0)], heap := [] }
    { nextId := 1, instances := [(0, 0)], heap := [] }
    (by decide) (by decide)

/-- From slot-equivalent states the two variants return identical id
sequences for every sequence of acquisitions. -/
theorem pRun_eq_mRun {s : PState} {t : MState}
    (h1 : s.instSlot = t.instances) (h2 : s.nextId = t.nextId) :
    ∀ seq, (pRun seq s).2 = (mRun seq t).2 := by
  intro seq
  induction seq generalizing s t with
  | nil => rfl
  | cons c cs ih =>
      have hb := pAcquire_matches_mCall h1 h2 c
      unfold pRun mRun
      simp [hb.1, ih hb.2.1 hb.2.2]

/-- Claim C5: the per-class single-slot variant and the central-registry
variant are functionally equivalent from the caller's perspective: every
sequence of acquisition calls, run from the initial state of each variant,
returns exactly the same sequence of object identities. -/
theorem c5_variants_equivalent_for_callers (seq : List Nat) :
    (pRun seq pState0).2 = (mRun seq mState0).2 :=
  pRun_eq_mRun rfl rfl seq

/-- `Singleton(*args)` with positional constructor arguments (modelled as a
list of `Nat`).  Python's `type.__call__` first runs
`Singleton.__new__(cls, *args)` — whose `*args, **kwargs` signature accepts
and ignores them — and then binds `instance.__init__(*args)`.  Since
`Singleton.__init__` is declared as `def __init__(self)`, a nonempty argument
list raises `TypeError` at the binding, before the `__init__` body runs but
after `__new__` has already executed (and possibly recorded the instance).
On error the result carries the state and trace at the point of the raise. -/
def pAcquireArgs (cls : Nat) (args : List Nat) (s : PState) :
    Except (PState × List Msg) (Nat × PState × List Msg) :=
  let r := pNew cls s
  if args.isEmpty then
    let r2 := pInit r.1 r.2.1
    .ok (r.1, r2.1, r.2.2 ++ r2.2)
  else
    .error (r.2.1, r.2.2)

/-- `MySingleton(*args)` under `SingletonMeta.__call__`.  If the class is
registered, `super().__call__` is never invoked, so the arguments are ignored
entirely and the stored instance is returned.  Otherwise the creation message
is printed and `super().__call__(*args)` runs: it allocates the object and
binds `MySingleton.__init__(self, *args)`; a nonempty argument list raises
`TypeError` there — before the init body, so no `__init__` message is printed,
nothing is stored in `_instances` (the assignment's right-hand side raised),
and the allocated object is discarded (only the counter advanced). -/
def mCallArgs (cls : Nat) (args : List Nat) (t : MState) :
    Except (MState × List Msg) (Nat × MState × List Msg) :=
  match t.instances.lookup cls with
  | some oid => .ok (oid, t, [Msg.metaReusing cls])
  | none =>
      if args.isEmpty then
        .ok (t.nextId,
          { nextId := t.nextId + 1,
            instances := (cls, t.nextId) :: t.instances,
            heap := (t.nextId, { data := "Some important shared data" }) :: t.heap },
          [Msg.metaCreating cls, Msg.myInit])
      else
        .error ({ t with nextId := t.nextId + 1 }, [Msg.metaCreating cls])

/-- `Singleton.__init__(self)` with a fault injected into the one-time
initialization logic (the body marked "Put your one-time initialization logic
here").  When `failInit` is true and the body runs, it raises after the
initialization print but before `some_data` and `_initialized` are set. -/
def pInitFail (oid : Nat) (failInit : Bool) (s : PState) :
    Except (PState × List Msg) (PState × List Msg) :=
  match s.heap.lookup oid with
  | none => .ok (s, [])
  | some o =>
      if o.initialized then .ok (s, [])
      else
        if failInit then .error (s, [Msg.initializing])
        else
          .ok ({ s with
                  heap := (oid, { initialized := true, some_data := some "Important data" })
                    :: s.heap },
            [Msg.initializing])

/-- `Singleton()` where the one-time `__init__` body may raise: `__new__`
runs first (recording the instance), then the possibly-failing `__init__`. -/
def pAcquireFail (cls : Nat) (failInit : Bool) (s : PState) :
    Except (PState × List Msg) (Nat × PState × List Msg) :=
  let r := pNew cls s
  match pInitFail r.1 failInit r.2.1 with
  | .error e => .error (e.1, r.2.2 ++ e.2)
  | .ok r2 => .ok (r.1, r2.1, r.2.2 ++ r2.2)

/-- Counterexample to claim C6: in the per-class variant, with the instance
for class 0 already recorded, an acquisition passing constructor argument 5
does not return successfully: it raises `TypeError` (since
`Singleton.__init__` is declared with no parameters besides `self`), so the
claim's "the call does not fail" is false for `singleton.py`. -/
theorem c6_counterexample :
    (pAcquire 0 pState0).2.1.instSlot.lookup 0 = some 0 ∧
    pAcquireArgs 0 [5] (pAcquire 0 pState0).2.1 =
      .error ((pAcquire 0 pState0).2.1, []) :=
  ⟨rfl, rfl⟩

/-- Claim C6 as amended: in the central-registry variant, if an instance is
recorded for the type identifier, acquisition with any constructor arguments
returns the recorded instance successfully, ignoring the arguments and
leaving state and store untouched.  In the per-class variant, by contrast, an
acquisition passing a nonempty argument list raises `TypeError` (the call
fails), though the stored instance itself is left unchanged. -/
theorem c6_recorded_instance_vs_constructor_args (cls v : Nat) (args : List Nat)
    (s : PState) (t : MState) :
    (t.instances.lookup cls = some v →
      mCallArgs cls args t = .ok (v, t, [Msg.metaReusing cls])) ∧
    (s.instSlot.lookup cls = some v → args ≠ [] →
      pAcquireArgs cls args s = .error (s, [])) := by
  constructor
  · intro ht
    unfold mCallArgs
    rw [ht]
  · intro hs hargs
    unfold pAcquireArgs
    rw [pNew_of_lookup_some hs]
    cases args with
    | nil => exact absurd rfl hargs
    | cons a as => rfl

/-- Witness for C6 (amended): class 0 with object 0 recorded, argument
list `[5]`. -/
theorem c6_witness :
    mCallArgs 0 [5] { nextId := 1, instances := [(0, 0)], heap := [] } =
      .ok (0, { nextId := 1, instances := [(0, 0)], heap := [] }, [Msg.metaReusing 0]) ∧
    pAcquireArgs 0 [5] { nextId := 1, instSlot := [(0, 0)], heap := [] } =
      .error ({ nextId := 1, instSlot := [(0, 0)], heap := [] }, []) :=
  ⟨(c6_recorded_instance_vs_constructor_args 0 0 [5]
      { nextId := 1, instSlot := [(0, 0)], heap := [] }
      { nextId := 1, instances := [(0, 0)], heap := [] }).1 (by decide),
   (c6_recorded_instance_vs_constructor_args 0 0 [5]
      { nextId := 1, instSlot := [(0, 0)], heap := [] }
      { nextId := 1, instances := [(0, 0)], heap := [] }).2 (by decide) (by decide)⟩

/-- Counterexample to claim C7: in the per-class variant, a reusing
acquisition returns the previously recorded instance but prints nothing at
all — no reuse message is ever emitted by `singleton.py`, so "in both
variants ... a reuse message is printed exactly when a previously recorded
instance is returned" is false. -/
theorem c7_counterexample :
    (pAcquire 0 (pAcquire 0 pState0).2.1).1 = (pAcquire 0 pState0).1 ∧
    (pAcquire 0 (pAcquire 0 pState0).2.1).2.2 = ([] : List Msg) :=
  ⟨rfl, rfl⟩

/-- Claim C7 as amended: the central-registry variant prints a creation
notice exactly when it constructs and a reuse notice exactly when it returns
a recorded instance; the per-class variant prints its creation and
initialization notices exactly when it constructs, but emits no message at
all when it returns the recorded (initialized) instance. -/
theorem c7_diagnostic_messages (cls : Nat) (s : PState) (t : MState) :
    (t.instances.lookup cls = none →
      (mCall cls t).2.2 = [Msg.metaCreating cls, Msg.myInit]) ∧
    (∀ v, t.instances.lookup cls = some v →
      (mCall cls t).2.2 = [Msg.metaReusing cls]) ∧
    (s.instSlot.lookup cls = none →
      (pAcquire cls s).2.2 = [Msg.creating, Msg.initializing]) ∧
    (∀ oid o, s.instSlot.lookup cls = some oid → s.heap.lookup oid = some o →
      o.initialized = true → (pAcquire cls s).2.2 = []) := by
  refine ⟨?_, ?_, ?_, ?_⟩
  · intro h
    rw [mCall_of_lookup_none h]
  · intro v h
    rw [mCall_of_lookup_some h]
  · intro h
    unfold pAcquire
    rw [pNew_of_lookup_none h]
    simp [pInit, lookup_cons_self]
  · intro oid o h1 h2 h3
    rw [pAcquire_silent h1 h2 h3]

/-- Witness for C7 (amended): class 0, fresh and recorded states of both
variants. -/
theorem c7_witness :
    (mCall 0 mState0).2.2 = [Msg.metaCreating 0, Msg.myInit] ∧
    (mCall 0 { nextId := 1, instances := [(0, 0)], heap := [] }).2.2 =
      [Msg.metaReusing 0] ∧
    (pAcquire 0 pState0).2.2 = [Msg.creating, Msg.initializing] ∧
    (pAcquire 0
      { nextId := 1, instSlot := [(0, 0)],
        heap := [(0, { initialized := true, some_data := some "Important data" })] }).2.2 =
      ([] : List Msg) :=
  ⟨(c7_diagnostic_messages 0 pState0 mState0).1 (by decide),
   (c7_diagnostic_messages 0 pState0
      { nextId := 1, instances := [(0, 0)], heap := [] }).2.1 0 (by decide),
   (c7_diagnostic_messages 0 pState0 mState0).2.2.1 (by decide),
   (c7_diagnostic_messages 0
      { nextId := 1, instSlot := [(0, 0)],
        heap := [(0, { initialized := true, some_data := some "Important data" })] }
      mState0).2.2.2 0 { initialized := true, some_data := some "Important data" }
      (by decide) (by decide) rfl⟩

/-- Claim C8: the registry adds no failure modes of its own.  For the
participating class (`MySingleton`, whose constructor raises `TypeError`
exactly when it receives constructor arguments), an acquisition raises if and
only if the class is not yet registered (first-time construction) and the
underlying constructor raises; and whenever it raises, the `_instances` store
is left unchanged — the assignment never happens because its right-hand side
raised first. -/
theorem c8_registry_adds_no_failure_modes (cls : Nat) (args : List Nat) (t : MState) :
    ((∃ e, mCallArgs cls args t = .error e) ↔
      (t.instances.lookup cls = none ∧ args ≠ [])) ∧
    (∀ e, mCallArgs cls args t = .error e → e.1.instances = t.instances) := by
  unfold mCallArgs
  cases h : t.instances.lookup cls with
  | some v =>
      refine ⟨⟨?_, ?_⟩, ?_⟩
      · rintro ⟨e, he⟩
        exact Except.noConfusion he
      · rintro ⟨hn, _⟩
        exact Option.noConfusion hn
      · intro e he
        exact Except.noConfusion he
  | none =>
      cases args with
      | nil =>
          refine ⟨⟨?_, ?_⟩, ?_⟩
          · rintro ⟨e, he⟩
            exact Except.noConfusion he
          · rintro ⟨_, hne⟩
            exact absurd rfl hne
          · intro e he
            exact Except.noConfusion he
      | cons a as =>
          refine ⟨⟨?_, ?_⟩, ?_⟩
          · intro _
            exact ⟨rfl, List.cons_ne_nil a as⟩
          · intro _
            exact ⟨({ t with nextId := t.nextId + 1 }, [Msg.metaCreating cls]), rfl⟩
          · intro e he
            injection he with h1
            rw [← h1]

/-- Witness for C8: class 0, argument list `[5]`, initial registry state:
the call errors (first-time construction with a raising constructor) and the
store is unchanged. -/
theorem c8_witness :
    ({ nextId := 1, instances := [], heap := [] } : MState).instances =
      mState0.instances ∧
    (mState0.instances.lookup 0 = none ∧ ([5] : List Nat) ≠ []) :=
  ⟨(c8_registry_adds_no_failure_modes 0 [5] mState0).2
      ({ nextId := 1, instances := [], heap := [] }, [Msg.metaCreating 0]) rfl,
   (c8_registry_adds_no_failure_modes 0 [5] mState0).1.mp
      ⟨({ nextId := 1, instances := [], heap := [] }, [Msg.metaCreating 0]), rfl⟩⟩

/-- The class id standing for `MySingleton` in the demonstration driver. -/
def MySingletonId : Nat := 0

/-- `test_singleton()`: `s1 = MySingleton()`, `s2 = MySingleton()` from the
initial module state; result is the two instance ids together with the value
of the asserted condition `s1 is s2`. -/
def test_singleton : Nat × Nat × Bool :=
  let r1 := mCall MySingletonId mState0
  let r2 := mCall MySingletonId r1.2.1
  (r1.1, r2.1, r1.1 == r2.1)

/-- Claim C9: the identity assertion in the demonstration driver never
fires: after the two acquisitions in `test_singleton`, `s1 is s2` holds, so
the driver's only failure path is unreachable. -/
theorem c9_test_singleton_assertion_never_fires :
    test_singleton.2.2 = true ∧ test_singleton.1 = test_singleton.2.1 := by
  decide

/-- Claim C10: in the per-class variant the new object is recorded in
`_instance` with `_initialized = False` already inside `__new__`, before
`__init__` runs; `_initialized` becomes true only when the one-time body
completes.  Hence if the initialization body raised, the partially
initialized object (flag false, no data) would already be recorded, and a
later acquisition would return that same object and re-run the
initialization body — the store is not left unchanged on an initialization
error, unlike the central-registry variant. -/
theorem c10_failed_init_leaves_recorded_partial_instance (cls : Nat) :
    pNew cls pState0 =
      (0,
        { nextId := 1, instSlot := [(cls, 0)],
          heap := [(0, { initialized := false, some_data := none })] },
        [Msg.creating]) ∧
    pAcquireFail cls true pState0 =
      .error
        ({ nextId := 1, instSlot := [(cls, 0)],
           heap := [(0, { initialized := false, some_data := none })] },
          [Msg.creating, Msg.initializing]) ∧
    pAcquireFail cls false
        { nextId := 1, instSlot := [(cls, 0)],
          heap := [(0, { initialized := false, some_data := none })] } =
      .ok (0,
        { nextId := 1, instSlot := [(cls, 0)],
          heap := [(0, { initialized := true, some_data := some "Important data" }),
                   (0, { initialized := false, some_data := none })] },
        [Msg.initializing]) := by
  have h0 : pState0.instSlot.lookup cls = none := rfl
  have hs2 : List.lookup cls [(cls, 0)] = some 0 := lookup_cons_self cls 0 []
  have h1 : pNew cls pState0 =
      (0,
        { nextId := 1, instSlot := [(cls, 0)],
          heap := [(0, { initialized := false, some_data := none })] },
        [Msg.creating]) := by
    rw [pNew_of_lookup_none h0]
    rfl
  have h2 : pNew cls
      { nextId := 1, instSlot := [(cls, 0)],
        heap := [(0, { initialized := false, some_data := none })] } =
      (0,
        { nextId := 1, instSlot := [(cls, 0)],
          heap := [(0, { initialized := false, some_data := none })] },
        []) := by
    exact pNew_of_lookup_some hs2
  have h1' : pNew cls { nextId := 0, instSlot := [], heap := [] } =
      (0,
        { nextId := 1, instSlot := [(cls, 0)],
          heap := [(0, { initialized := false, some_data := none })] },
        [Msg.creating]) := h1
  refine ⟨h1, ?_, ?_⟩
  · simp [pAcquireFail, pState0, h1', pInitFail, List.lookup]
  · simp [pAcquireFail, h2, pInitFail, List.lookup]

